import Mathlib

/-!
Verification development for the ctfd-setup repository.

The repository ships browser-side scripts (`view.js`, the admin
image-dropdown script) together with HTML templates; the container
lifecycle manager behind the `/containers/api/*` endpoints is not part of
the supplied sources, only its HTTP surface is exercised by the scripts.
The client-side handlers are embedded directly from the JavaScript source;
the lifecycle manager is modelled from the specification, as marked on
each definition.
-/

namespace CtfdSetup

/-! ## Part 1: client-side scripts (embedded from the JavaScript source) -/

/-- A JavaScript value as it can appear in a parsed JSON field.  `JSON.parse`
never yields `undefined`, so an absent field is represented by `Option.none`
at the use site and the value type covers null, booleans, numbers and
strings (the kinds relevant to the handlers below). -/
inductive JsVal where
  | jnull : JsVal
  | jbool : Bool → JsVal
  | jnum : Int → JsVal
  | jstr : String → JsVal
deriving DecidableEq, Repr

/-- JavaScript ToNumber on a string, restricted to the integral results the
client compares against (`challenge_id` is produced by `parseInt`): trimmed
empty string is 0, otherwise an integer literal parse. -/
def strToNumber (s : String) : Option Int :=
  if s.trim.isEmpty then some 0 else s.trim.toInt?

/-- JavaScript loose equality `x == n` between a possibly-absent JSON field
value and an integer: `undefined == n` and `null == n` are false, a number
compares numerically, a string via ToNumber, a boolean via ToNumber. -/
def jsLooseEqNum : Option JsVal → Int → Bool
  | none, _ => false
  | some JsVal.jnull, _ => false
  | some (JsVal.jbool b), m => (if b then (1 : Int) else 0) == m
  | some (JsVal.jnum n), m => n == m
  | some (JsVal.jstr s), m => strToNumber s == some m

/-- Parsed body of a response to POST `/containers/api/running`, as consumed
by `container_running` in `view.js`.  `none` means the field is absent
(reads as `undefined`); a parsed object is always truthy, so the `data &&`
guard of the third branch is vacuous here. -/
structure RunningResponse where
  error : Option JsVal
  message : Option JsVal
  status : Option JsVal
  container_id : Option JsVal
deriving DecidableEq, Repr

/-- Observable effects of the `container_running` onload handler
(`view.js` lines 60-81), in execution order. -/
inductive RunEffect where
  | displayError : RunEffect
  | setErrorText : RunEffect
  | enableRequestButton : RunEffect
  | logChallengeId : RunEffect
  | invokeContainerRequest : Int → RunEffect
  | logData : RunEffect
deriving DecidableEq, Repr

/-- The onload handler of `container_running` (`view.js` lines 60-81):
`data.error !== undefined` shows the error and re-enables the button;
else `data.message !== undefined` does the same with the message; else if
`data.status === "already_running" && data.container_id == challenge_id`
it logs the challenge id and invokes `container_request(challenge_id)`;
else nothing.  `console.log(data)` runs in every case. -/
def container_running_onload (d : RunningResponse) (challenge_id : Int) :
    List RunEffect :=
  (if d.error.isSome then
    [RunEffect.displayError, RunEffect.setErrorText, RunEffect.enableRequestButton]
  else if d.message.isSome then
    [RunEffect.displayError, RunEffect.setErrorText, RunEffect.enableRequestButton]
  else if d.status == some (JsVal.jstr "already_running")
      && jsLooseEqNum d.container_id challenge_id then
    [RunEffect.logChallengeId, RunEffect.invokeContainerRequest challenge_id]
  else []) ++ [RunEffect.logData]

/-- Parsed body of a response to POST `/containers/api/reset` as consumed by
`container_reset` in `view.js`.  Per the interface table, `error` and
`message` are user-facing strings when present; the success payload carries
hostname, port and expiry. -/
structure ResetResponse where
  error : Option String
  message : Option String
  hostname : String
  port : Nat
  expires : Nat
deriving DecidableEq, Repr

/-- Statements of the `container_reset` onload handler
(`view.js` lines 149-171), named after their effect. -/
inductive RStmt where
  | showErrorDisplay : RStmt
  | setErrorText : RStmt
  | enableResetButton : RStmt
  | hideError : RStmt
  | setConnInfo : RStmt
  | setExpiresText : RStmt
  | showResult : RStmt
  | logData : RStmt
deriving DecidableEq, Repr

/-- Identifiers a statement of the `container_reset` onload handler
evaluates, read off the JavaScript source.  `setExpiresText` is
`containerExpires.innerHTML = Math.ceil((new Date(data.expires * 1000) -
new Date()) / 1000 / 60)` (line 165). -/
def rstmtRefs : RStmt → List String
  | RStmt.showErrorDisplay => ["requestError"]
  | RStmt.setErrorText => ["requestError", "data"]
  | RStmt.enableResetButton => ["resetButton"]
  | RStmt.hideError => ["requestError"]
  | RStmt.setConnInfo => ["connectionInfo", "data"]
  | RStmt.setExpiresText => ["containerExpires", "Math", "Date", "data"]
  | RStmt.showResult => ["requestResult"]
  | RStmt.logData => ["console", "data"]

/-- Top-level declarations of `view.js`: only function declarations; no
top-level `var` introduces `containerExpires` (the `var containerExpires`
lines sit inside `container_request` and `container_renew` and are
function-scoped there). -/
def viewJsTopLevel : List String :=
  ["container_running", "container_request", "container_reset",
   "container_renew", "container_stop", "mergeQueryParams"]

/-- Host-environment globals the script can evaluate. -/
def hostGlobals : List String :=
  ["document", "console", "init", "CTFd", "JSON", "Math", "Date",
   "XMLHttpRequest"]

/-- `var` declarations and the parameter in scope inside `container_reset`
(`view.js` lines 133-147), available to its onload closure together with
the closure-local `data`. -/
def resetLocals : List String :=
  ["challenge_id", "path", "resetButton", "requestResult", "connectionInfo",
   "requestError", "xhr", "data"]

/-- Whether an identifier is bound in the scope of the `container_reset`
onload handler. -/
def boundInResetOnload (x : String) : Bool :=
  (resetLocals ++ viewJsTopLevel ++ hostGlobals).contains x

/-- Run a list of statements in order under a scope: a statement whose
referenced identifiers are all bound executes and execution continues; a
statement referencing an unbound identifier raises a ReferenceError,
aborting the rest.  Returns the executed statements and whether the body
completed normally. -/
def runStmts (env : String → Bool) : List RStmt → List RStmt × Bool
  | [] => ([], true)
  | s :: rest =>
    if (rstmtRefs s).all env then
      let r := runStmts env rest
      (s :: r.1, r.2)
    else ([], false)

/-- Statement list of the error branch of `container_reset`'s onload
handler (`data.error !== undefined`), lines 151-155 plus the trailing
`console.log`. -/
def resetErrorBody : List RStmt :=
  [RStmt.showErrorDisplay, RStmt.setErrorText, RStmt.enableResetButton,
   RStmt.logData]

/-- Statement list of the message branch (`data.message !== undefined`),
lines 156-160 plus the trailing `console.log`. -/
def resetMessageBody : List RStmt :=
  [RStmt.showErrorDisplay, RStmt.setErrorText, RStmt.enableResetButton,
   RStmt.logData]

/-- Statement list of the success branch, lines 161-168 plus the trailing
`console.log`. -/
def resetSuccessBody : List RStmt :=
  [RStmt.hideError, RStmt.setConnInfo, RStmt.setExpiresText,
   RStmt.showResult, RStmt.logData]

/-- The onload handler of `container_reset` (`view.js` lines 149-171):
branch selection as in the source, each branch executed under the scope of
the handler. -/
def container_reset_onload (d : ResetResponse) : List RStmt × Bool :=
  runStmts boundInResetOnload
    (if d.error.isSome then resetErrorBody
     else if d.message.isSome then resetMessageBody
     else resetSuccessBody)

/-- Parsed body of a response to GET `/containers/api/images` as consumed
by the admin image-dropdown script (`src/unnamed/part_000`).  Per the
interface table the body is `\x7bimages: [name,...]\x7d` or
`\x7berror: msg\x7d` with `msg` a string. -/
structure ImagesResponse where
  error : Option String
  images : List String
deriving DecidableEq, Repr

/-- State of the image dropdown: its appended options as (value, text)
pairs, the text of the default option, and the `disabled` attribute
(initially `true` per the `container-image` select element in the create
template). -/
structure DropdownState where
  options : List (String × String)
  defaultText : String
  disabled : Bool
deriving DecidableEq, Repr

/-- The onload handler of the image-dropdown script
(`src/unnamed/part_000` lines 21-39): on `data.error != undefined` write
the error into the default option (the dropdown is left as is, so it stays
disabled); otherwise append one option per image with value and text the
image name, set the default option text and remove the `disabled`
attribute. -/
def images_onload (d : ImagesResponse) (s : DropdownState) : DropdownState :=
  match d.error with
  | some e => { s with defaultText := e }
  | none =>
    { options := s.options ++ d.images.map (fun n => (n, n)),
      defaultText := "Choose an image...",
      disabled := false }

/-! ## Part 2: the container lifecycle manager

The lifecycle manager behind `/containers/api/*` is not among the supplied
sources; §1 of the spec states that only its HTTP surface is exercised by
the browser scripts and defines the core from the observed contract.  The
definitions below are therefore modelled from the spec (§3-§5), as marked
on each. -/

/-- Modelled from the spec: instance status enum (§3, `status`). -/
inductive Status where
  | pending : Status
  | running : Status
  | stopped : Status
deriving DecidableEq, Repr

/-- Modelled from the spec: connection type enum (§3, `connection_type`). -/
inductive ConnectionType where
  | web : ConnectionType
  | tcp : ConnectionType
deriving DecidableEq, Repr

/-- Modelled from the spec: the GlobalSettings fields the lifecycle manager
reads (§3): display hostname, expiration minutes (0 = never expire), max
containers per owner. -/
structure Settings where
  docker_hostname : String
  container_expiration : Nat
  max_containers : Nat
deriving DecidableEq, Repr

/-- Modelled from the spec: the ChallengeContainerConfig fields consumed at
instance creation (§3): image name, connection type, internal port. -/
structure ChallengeConfig where
  image : String
  connection_type : ConnectionType
  port_internal : Nat
deriving DecidableEq, Repr

/-- Modelled from the spec: a ContainerInstance record (§3). Timestamps are
Unix seconds (the client multiplies `expires` by 1000 to build a Date);
`expires_at` is unset when expiration is disabled. -/
structure ContainerInstance where
  owner_id : Nat
  challenge_id : Nat
  container_ref : Nat
  image : String
  connection_type : ConnectionType
  port_internal : Nat
  port_external : Nat
  hostname : String
  created_at : Nat
  expires_at : Option Nat
  status : Status
deriving DecidableEq, Repr

/-- Modelled from the spec: the Instance Store plus the runtime view the
driver reports — `liveRefs` is the set of container refs the engine
reports live, `nextRef` the next runtime-assigned ref. -/
structure ManagerState where
  instances : List ContainerInstance
  liveRefs : List Nat
  nextRef : Nat
deriving DecidableEq, Repr

/-- Modelled from the spec: the error taxonomy of §7 that lifecycle
operations return. -/
inductive LifecycleError where
  | NotFound : LifecycleError
  | QuotaExceeded : LifecycleError
  | RuntimeError : LifecycleError
deriving DecidableEq, Repr

/-- Modelled from the spec: the connection info returned to the caller
(hostname, external port, expiry) per §6. -/
structure ConnInfo where
  hostname : String
  port : Nat
  expires : Option Nat
deriving DecidableEq, Repr

/-- Whether an instance is the `running` instance of the pair (o, c). -/
def isRunningFor (o c : Nat) (i : ContainerInstance) : Bool :=
  i.owner_id == o && i.challenge_id == c && i.status == Status.running

/-- The `running` instances stored for the pair (o, c). -/
def runningFor (st : ManagerState) (o c : Nat) : List ContainerInstance :=
  st.instances.filter (isRunningFor o c)

/-- Whether an instance counts against its owner's running-instance quota. -/
def countsForOwner (o : Nat) (i : ContainerInstance) : Bool :=
  i.owner_id == o && i.status == Status.running

/-- Number of `running` instances an owner has across all challenges. -/
def ownerRunningCount (st : ManagerState) (o : Nat) : Nat :=
  st.instances.countP (countsForOwner o)

/-- Modelled from the spec: `expires_at` computation (§3): current time
plus the configured expiration minutes, or unset when expiration is
disabled (0 = never expire). -/
def computeExpiry (cfg : Settings) (now : Nat) : Option Nat :=
  if cfg.container_expiration == 0 then none
  else some (now + cfg.container_expiration * 60)

/-- Connection info of a stored instance. -/
def connInfoOf (i : ContainerInstance) : ConnInfo :=
  { hostname := i.hostname, port := i.port_external, expires := i.expires_at }

/-- The fresh ContainerInstance persisted by a creating Request (§4.1):
`status = running`, `expires_at` computed from the current time, ref and
external port assigned by the runtime. -/
def newInstance (cfg : Settings) (ch : ChallengeConfig) (st : ManagerState)
    (o c now pext : Nat) : ContainerInstance :=
  { owner_id := o, challenge_id := c, container_ref := st.nextRef,
    image := ch.image, connection_type := ch.connection_type,
    port_internal := ch.port_internal, port_external := pext,
    hostname := cfg.docker_hostname, created_at := now,
    expires_at := computeExpiry cfg now, status := Status.running }

/-- Modelled from the spec: the creation path shared by Request and Reset
(§4.1): fail with `QuotaExceeded` if the owner's running-instance count is
at or above `max_containers`; else ask the Runtime Driver to create a
container (`runtime = none` models driver failure, `some pext` a created
container with external port `pext`); on driver failure fail with
`RuntimeError` leaving the store exactly as before (any partial container
is cleaned up); on success persist the new running instance and report its
connection info. -/
def createInstance (cfg : Settings) (ch : ChallengeConfig) (st : ManagerState)
    (o c now : Nat) (runtime : Option Nat) :
    Except LifecycleError ConnInfo × ManagerState :=
  if cfg.max_containers ≤ ownerRunningCount st o then
    (Except.error LifecycleError.QuotaExceeded, st)
  else
    match runtime with
    | none => (Except.error LifecycleError.RuntimeError, st)
    | some pext =>
      let inst := newInstance cfg ch st o c now pext
      (Except.ok (connInfoOf inst),
       { instances := inst :: st.instances,
         liveRefs := inst.container_ref :: st.liveRefs,
         nextRef := st.nextRef + 1 })

/-- Modelled from the spec: Request (§4.1): if a `running` instance exists
for the pair, return its current connection info unchanged (idempotent);
else run the quota-checked creation path. -/
def request (cfg : Settings) (ch : ChallengeConfig) (st : ManagerState)
    (o c now : Nat) (runtime : Option Nat) :
    Except LifecycleError ConnInfo × ManagerState :=
  match runningFor st o c with
  | i :: _ => (Except.ok (connInfoOf i), st)
  | [] => createInstance cfg ch st o c now runtime

/-- Update applied by Renew to the pair's running instance: recompute
`expires_at` from the current time; everything else untouched. -/
def renewUpd (cfg : Settings) (now o c : Nat) (j : ContainerInstance) :
    ContainerInstance :=
  if isRunningFor o c j then { j with expires_at := computeExpiry cfg now }
  else j

/-- Modelled from the spec: Renew (§4.1): requires an existing `running`
instance, failing with `NotFound` otherwise; recomputes `expires_at` from
the current time and does not touch the runtime container. -/
def renew (cfg : Settings) (st : ManagerState) (o c now : Nat) :
    Except LifecycleError ConnInfo × ManagerState :=
  match runningFor st o c with
  | [] => (Except.error LifecycleError.NotFound, st)
  | i :: _ =>
    (Except.ok { hostname := i.hostname, port := i.port_external,
                 expires := computeExpiry cfg now },
     { st with instances := st.instances.map (renewUpd cfg now o c) })

/-- Update applied by Stop to the pair's running instance: transition the
record to `stopped`. -/
def stopUpd (o c : Nat) (j : ContainerInstance) : ContainerInstance :=
  if isRunningFor o c j then { j with status := Status.stopped } else j

/-- Modelled from the spec: Stop (§4.1): requires a `running` instance;
stops the runtime container (its ref no longer resolves live) and
transitions the record to `stopped`. -/
def stop (st : ManagerState) (o c : Nat) :
    Except LifecycleError Unit × ManagerState :=
  match runningFor st o c with
  | [] => (Except.error LifecycleError.NotFound, st)
  | _ :: _ =>
    let refs := (runningFor st o c).map (fun i => i.container_ref)
    (Except.ok (),
     { st with
       instances := st.instances.map (stopUpd o c),
       liveRefs := st.liveRefs.filter (fun r => !(refs.contains r)) })

/-- Modelled from the spec: Reset (§4.1): requires an existing instance
(`running` or `stopped`); stops and removes the pair's records (atomic
replacement) and creates a fresh instance exactly as in Request, through
the same quota-checked creation path. -/
def reset (cfg : Settings) (ch : ChallengeConfig) (st : ManagerState)
    (o c now : Nat) (runtime : Option Nat) :
    Except LifecycleError ConnInfo × ManagerState :=
  if (st.instances.filter
      (fun i => i.owner_id == o && i.challenge_id == c)).isEmpty then
    (Except.error LifecycleError.NotFound, st)
  else
    let refs := (runningFor st o c).map (fun i => i.container_ref)
    let cleared : ManagerState :=
      { st with
        instances := st.instances.filter
          (fun i => !(i.owner_id == o && i.challenge_id == c)),
        liveRefs := st.liveRefs.filter (fun r => !(refs.contains r)) }
    createInstance cfg ch cleared o c now runtime

/-- Whether an instance is due for reaping at time `now` (§4.3): `running`
with `expires_at` set and passed; never-expire instances (unset
`expires_at`) are skipped. -/
def isExpired (now : Nat) (i : ContainerInstance) : Bool :=
  i.status == Status.running &&
    match i.expires_at with
    | some t => t < now
    | none => false

/-- Update applied by a Reaper sweep to an expired instance: the same stop
transition as a user-initiated Stop. -/
def sweepUpd (now : Nat) (i : ContainerInstance) : ContainerInstance :=
  if isExpired now i then { i with status := Status.stopped } else i

/-- Modelled from the spec: one Reaper sweep (§4.3): every `running`
instance whose `expires_at` has passed goes through the stop sequence —
record transitions to `stopped` and its container ref no longer resolves
live. -/
def sweep (st : ManagerState) (now : Nat) : ManagerState :=
  let refs := (st.instances.filter (isExpired now)).map
    (fun i => i.container_ref)
  { st with
    instances := st.instances.map (sweepUpd now),
    liveRefs := st.liveRefs.filter (fun r => !(refs.contains r)) }

/-- A sequence of Reaper sweeps at the given times. -/
def sweepMany (st : ManagerState) (ts : List Nat) : ManagerState :=
  ts.foldl sweep st

/-- The per-owner quota invariant (§3): no owner exceeds `max_containers`
simultaneously `running` instances. -/
def QuotaOK (cfg : Settings) (st : ManagerState) : Prop :=
  ∀ o, ownerRunningCount st o ≤ cfg.max_containers

/-! ### Concrete fixtures (README-recommended 30-minute expiration) -/

/-- Example settings: 30-minute expiration, quota of 3 containers. -/
def exCfg : Settings :=
  { docker_hostname := "host", container_expiration := 30, max_containers := 3 }

/-- Example settings with a quota of one container. -/
def exCfgQ1 : Settings := { exCfg with max_containers := 1 }

/-- Example settings with expiration disabled (0 = never expire). -/
def exCfg0 : Settings := { exCfg with container_expiration := 0 }

/-- Example challenge configuration. -/
def exCh : ChallengeConfig :=
  { image := "img", connection_type := ConnectionType.tcp, port_internal := 80 }

/-- The empty instance store. -/
def emptyState : ManagerState := { instances := [], liveRefs := [], nextRef := 0 }

/-- The instance created by a Request of owner 1, challenge 1 at t = 0. -/
def exInst : ContainerInstance := newInstance exCfg exCh emptyState 1 1 0 4000

/-- The store after that Request. -/
def exSt1 : ManagerState := (request exCfg exCh emptyState 1 1 0 (some 4000)).2

/-- A never-expire instance of owner 2 (created under disabled expiration). -/
def exInstNoExp : ContainerInstance :=
  newInstance exCfg0 exCh { instances := [], liveRefs := [], nextRef := 7 } 2 1 0 4100

/-- A store holding one expirable and one never-expire running instance. -/
def exStSweep : ManagerState :=
  { instances := [exInst, exInstNoExp], liveRefs := [0, 7], nextRef := 8 }

/-! ## Theorems -/

/-- Request on a pair with a stored running instance takes the idempotent
branch. -/
theorem request_of_running (cfg : Settings) (ch : ChallengeConfig)
    (st : ManagerState) (o c now : Nat) (rt : Option Nat)
    (i : ContainerInstance) (rest : List ContainerInstance)
    (h : runningFor st o c = i :: rest) :
    request cfg ch st o c now rt = (Except.ok (connInfoOf i), st) := by
  unfold request
  rw [h]

/-- Request on a pair with no stored running instance goes through the
creation path. -/
theorem request_of_fresh (cfg : Settings) (ch : ChallengeConfig)
    (st : ManagerState) (o c now : Nat) (rt : Option Nat)
    (h : runningFor st o c = []) :
    request cfg ch st o c now rt = createInstance cfg ch st o c now rt := by
  unfold request
  rw [h]

/-- The creation path under quota with a successful runtime create. -/
theorem createInstance_ok (cfg : Settings) (ch : ChallengeConfig)
    (st : ManagerState) (o c now pext : Nat)
    (hq : ownerRunningCount st o < cfg.max_containers) :
    createInstance cfg ch st o c now (some pext) =
      (Except.ok (connInfoOf (newInstance cfg ch st o c now pext)),
       { instances := newInstance cfg ch st o c now pext :: st.instances,
         liveRefs := st.nextRef :: st.liveRefs,
         nextRef := st.nextRef + 1 }) := by
  unfold createInstance
  rw [if_neg (Nat.not_le.mpr hq)]
  rfl

/-- C3: Request is idempotent on a running instance: whenever a `running`
instance is stored for the pair, Request succeeds with that instance's
current connection info (hostname, port, expiry) unchanged and leaves the
store (and runtime view) exactly as it was — no quota hypothesis is
needed, so this holds in particular for an owner at `max_containers`. -/
theorem c3_request_idempotent (cfg : Settings) (ch : ChallengeConfig)
    (st : ManagerState) (o c now : Nat) (rt : Option Nat)
    (i : ContainerInstance) (rest : List ContainerInstance)
    (h : runningFor st o c = i :: rest) :
    (request cfg ch st o c now rt).1 = Except.ok (connInfoOf i) ∧
    (request cfg ch st o c now rt).2 = st := by
  rw [request_of_running cfg ch st o c now rt i rest h]
  exact ⟨rfl, rfl⟩

/-- C3 witness: owner 1 is at the quota of `exCfgQ1` (one running
instance) and a Request for the running pair still succeeds idempotently. -/
theorem c3_witness :
    runningFor exSt1 1 1 = [exInst] ∧
    exCfgQ1.max_containers ≤ ownerRunningCount exSt1 1 ∧
    (request exCfgQ1 exCh exSt1 1 1 50 none).1 = Except.ok (connInfoOf exInst) ∧
    (request exCfgQ1 exCh exSt1 1 1 50 none).2 = exSt1 := by
  refine ⟨by decide, by decide, ?_⟩
  exact c3_request_idempotent exCfgQ1 exCh exSt1 1 1 50 none exInst [] (by decide)

/-- C5: when the Runtime Driver fails during creation (no running
instance exists for the pair and the owner is under quota, so the
creation path is reached), Request fails with `RuntimeError` and the
returned state is exactly the pre-call state: no partial record. -/
theorem c5_runtime_failure_atomic (cfg : Settings) (ch : ChallengeConfig)
    (st : ManagerState) (o c now : Nat)
    (hfresh : runningFor st o c = [])
    (hq : ownerRunningCount st o < cfg.max_containers) :
    request cfg ch st o c now none =
      (Except.error LifecycleError.RuntimeError, st) := by
  rw [request_of_fresh cfg ch st o c now none hfresh]
  unfold createInstance
  rw [if_neg (Nat.not_le.mpr hq)]

/-- C5 witness: a runtime failure on the empty store at t = 0. -/
theorem c5_witness :
    runningFor emptyState 1 1 = [] ∧
    ownerRunningCount emptyState 1 < exCfg.max_containers ∧
    request exCfg exCh emptyState 1 1 0 none =
      (Except.error LifecycleError.RuntimeError, emptyState) := by
  refine ⟨by decide, by decide, ?_⟩
  exact c5_runtime_failure_atomic exCfg exCh emptyState 1 1 0 (by decide) (by decide)

/-- Filtering the pushed store: the freshly created instance is running
for its own pair. -/
theorem runningFor_push (st : ManagerState) (o c : Nat)
    (i : ContainerInstance) (live : List Nat) (nr : Nat)
    (hi : isRunningFor o c i = true) :
    runningFor { instances := i :: st.instances, liveRefs := live,
                 nextRef := nr } o c = i :: runningFor st o c := by
  unfold runningFor
  simp [List.filter_cons, hi]

/-- The fresh instance satisfies `isRunningFor` for its pair. -/
theorem isRunningFor_newInstance (cfg : Settings) (ch : ChallengeConfig)
    (st : ManagerState) (o c now pext : Nat) :
    isRunningFor o c (newInstance cfg ch st o c now pext) = true := by
  simp [isRunningFor, newInstance]

/-- C1 (amended): immediately after a successful Request, exactly one
`running` instance exists for the pair (assuming at most one before the
call); when the Request created the instance (no prior running instance
for the pair), its `expires_at` is `computeExpiry`: unset when the
configured expiration is 0, otherwise the request time plus the
configured expiration minutes and strictly in the future; when a running
instance already existed, Request returns it with its stored `expires_at`
unchanged. -/
theorem c1_request_postcondition (cfg : Settings) (ch : ChallengeConfig)
    (st : ManagerState) (o c now pext : Nat)
    (hu : (runningFor st o c).length ≤ 1) :
    ∀ info st2, request cfg ch st o c now (some pext) = (Except.ok info, st2) →
      (runningFor st2 o c).length = 1 ∧
      (runningFor st o c = [] →
        info = connInfoOf (newInstance cfg ch st o c now pext) ∧
        runningFor st2 o c = [newInstance cfg ch st o c now pext] ∧
        (cfg.container_expiration = 0 →
          (newInstance cfg ch st o c now pext).expires_at = none) ∧
        (cfg.container_expiration ≠ 0 →
          (newInstance cfg ch st o c now pext).expires_at =
            some (now + cfg.container_expiration * 60) ∧
          now < now + cfg.container_expiration * 60)) ∧
      (∀ i rest, runningFor st o c = i :: rest →
        info = connInfoOf i ∧ st2 = st ∧ (connInfoOf i).expires = i.expires_at) := by
  intro info st2 hreq
  cases h : runningFor st o c with
  | nil =>
    rw [request_of_fresh cfg ch st o c now (some pext) h] at hreq
    by_cases hq : cfg.max_containers ≤ ownerRunningCount st o
    · unfold createInstance at hreq
      rw [if_pos hq] at hreq
      simp at hreq
    · rw [createInstance_ok cfg ch st o c now pext (Nat.not_le.mp hq)] at hreq
      have hinfo : info = connInfoOf (newInstance cfg ch st o c now pext) := by
        have h1 := congrArg Prod.fst hreq
        simp at h1
        exact h1.symm
      have hst2 : st2 =
          { instances := newInstance cfg ch st o c now pext :: st.instances,
            liveRefs := st.nextRef :: st.liveRefs,
            nextRef := st.nextRef + 1 } := by
        have h2 := congrArg Prod.snd hreq
        simp at h2
        exact h2.symm
      have hrun : runningFor st2 o c = [newInstance cfg ch st o c now pext] := by
        rw [hst2,
          runningFor_push st o c _ _ _ (isRunningFor_newInstance cfg ch st o c now pext), h]
      refine ⟨by rw [hrun]; rfl, ?_, ?_⟩
      · intro _
        refine ⟨hinfo, hrun, ?_, ?_⟩
        · intro h0
          simp [newInstance, computeExpiry, h0]
        · intro h0
          refine ⟨by simp [newInstance, computeExpiry, h0], ?_⟩
          have : 0 < cfg.container_expiration * 60 :=
            Nat.mul_pos (Nat.pos_of_ne_zero h0) (by decide)
          omega
      · intro i rest hcontra
        exact absurd hcontra (by simp)
  | cons i rest =>
    rw [request_of_running cfg ch st o c now (some pext) i rest h] at hreq
    have hinfo : info = connInfoOf i := by
      have h1 := congrArg Prod.fst hreq
      simp at h1
      exact h1.symm
    have hst2 : st2 = st := by
      have h2 := congrArg Prod.snd hreq
      simp at h2
      exact h2.symm
    have hrest : rest = [] := by
      have hlen : (i :: rest).length ≤ 1 := h ▸ hu
      simpa using hlen
    refine ⟨?_, ?_, ?_⟩
    · rw [hst2, h, hrest]
      rfl
    · intro hcontra
      exact absurd hcontra (by simp)
    · intro i2 rest2 h2
      injection h2 with h2a h2b
      subst h2a
      exact ⟨hinfo, hst2, rfl⟩

/-- C1 counterexample: with 30-minute expiration, a Request of (1, 1) at
t = 0 stores `expires_at = 1800`; a second successful Request of the same
pair at t = 100 returns the instance idempotently, and immediately after
it the running instance's `expires_at` is still 1800, which is not the
request time plus the configured expiration (100 + 30·60 = 1900).  So the
claim's clause that after every successful Request `expires_at` equals
the request time plus the configured expiration minutes is false. -/
theorem c1_counterexample :
    (request exCfg exCh exSt1 1 1 100 (some 5000)).1 =
      Except.ok { hostname := "host", port := 4000, expires := some 1800 } ∧
    (request exCfg exCh exSt1 1 1 100 (some 5000)).2 = exSt1 ∧
    (runningFor (request exCfg exCh exSt1 1 1 100 (some 5000)).2 1 1).map
      (fun i => i.expires_at) = [some 1800] ∧
    (some 1800 : Option Nat) ≠ some (100 + exCfg.container_expiration * 60) :=
  ⟨rfl, rfl, rfl, by decide⟩

/-- C1 witness: the empty store has at most one running instance for
(1, 1), and after the creating Request at t = 0 exactly one exists. -/
theorem c1_witness :
    (runningFor emptyState 1 1).length ≤ 1 ∧
    (runningFor exSt1 1 1).length = 1 :=
  ⟨by decide,
   (c1_request_postcondition exCfg exCh emptyState 1 1 0 4000 (by decide)
      (connInfoOf exInst) exSt1 rfl).1⟩

/-- C7: two Request calls for the same pair, serialized per the spec's
per-key mutual-exclusion discipline (§5), create exactly one container:
starting from a pair-free state under quota, the first Request creates
the instance and succeeds; the second Request, run on the winner's state,
returns the very same connection info and changes nothing; across both
calls the runtime created exactly one container (one new live ref, one
runtime-assigned ref consumed). -/
theorem c7_serialized_requests (cfg : Settings) (ch : ChallengeConfig)
    (st : ManagerState) (o c now pext : Nat) (rt2 : Option Nat)
    (hfresh : runningFor st o c = [])
    (hq : ownerRunningCount st o < cfg.max_containers) :
    (request cfg ch st o c now (some pext)).1 =
      Except.ok (connInfoOf (newInstance cfg ch st o c now pext)) ∧
    request cfg ch (request cfg ch st o c now (some pext)).2 o c now rt2 =
      ((request cfg ch st o c now (some pext)).1,
       (request cfg ch st o c now (some pext)).2) ∧
    ((request cfg ch st o c now (some pext)).2).liveRefs.length =
      st.liveRefs.length + 1 ∧
    ((request cfg ch st o c now (some pext)).2).nextRef = st.nextRef + 1 := by
  have h1 : request cfg ch st o c now (some pext) =
      (Except.ok (connInfoOf (newInstance cfg ch st o c now pext)),
       { instances := newInstance cfg ch st o c now pext :: st.instances,
         liveRefs := st.nextRef :: st.liveRefs,
         nextRef := st.nextRef + 1 }) := by
    rw [request_of_fresh cfg ch st o c now (some pext) hfresh,
      createInstance_ok cfg ch st o c now pext hq]
  have hrun : runningFor (request cfg ch st o c now (some pext)).2 o c =
      [newInstance cfg ch st o c now pext] := by
    rw [h1]
    rw [runningFor_push st o c _ _ _ (isRunningFor_newInstance cfg ch st o c now pext),
      hfresh]
  have h2 := request_of_running cfg ch (request cfg ch st o c now (some pext)).2
    o c now rt2 (newInstance cfg ch st o c now pext) [] hrun
  refine ⟨by rw [h1], ?_, by rw [h1]; simp, by rw [h1]⟩
  rw [h2, h1]

/-- C7 witness: the two serialized Requests of the scenario at t = 0 on
the empty store. -/
theorem c7_witness :
    request exCfg exCh (request exCfg exCh emptyState 1 1 0 (some 4000)).2
        1 1 0 (some 9999) =
      ((request exCfg exCh emptyState 1 1 0 (some 4000)).1,
       (request exCfg exCh emptyState 1 1 0 (some 4000)).2) ∧
    ((request exCfg exCh emptyState 1 1 0 (some 4000)).2).liveRefs.length =
      emptyState.liveRefs.length + 1 :=
  ⟨(c7_serialized_requests exCfg exCh emptyState 1 1 0 4000 (some 9999)
      (by decide) (by decide)).2.1,
   (c7_serialized_requests exCfg exCh emptyState 1 1 0 4000 (some 9999)
      (by decide) (by decide)).2.2.1⟩

/-- Renew on a pair without a stored running instance fails. -/
theorem renew_of_none (cfg : Settings) (st : ManagerState) (o c now : Nat)
    (h : runningFor st o c = []) :
    renew cfg st o c now = (Except.error LifecycleError.NotFound, st) := by
  unfold renew
  rw [h]

/-- Renew on a pair with a stored running instance recomputes the expiry. -/
theorem renew_of_running (cfg : Settings) (st : ManagerState) (o c now : Nat)
    (i : ContainerInstance) (rest : List ContainerInstance)
    (h : runningFor st o c = i :: rest) :
    renew cfg st o c now =
      (Except.ok { hostname := i.hostname, port := i.port_external,
                   expires := computeExpiry cfg now },
       { st with instances := st.instances.map (renewUpd cfg now o c) }) := by
  unfold renew
  rw [h]

/-- The renewed store's running instances for the pair are exactly the
previous ones with `expires_at` recomputed. -/
theorem runningFor_renew (cfg : Settings) (st : ManagerState) (o c now : Nat) :
    runningFor { st with instances := st.instances.map (renewUpd cfg now o c) }
        o c =
      (runningFor st o c).map
        (fun j => { j with expires_at := computeExpiry cfg now }) := by
  show (st.instances.map (renewUpd cfg now o c)).filter (isRunningFor o c) = _
  rw [List.filter_map]
  have hpred : ∀ j ∈ st.instances,
      (isRunningFor o c ∘ renewUpd cfg now o c) j = isRunningFor o c j := by
    intro j _
    simp only [Function.comp_apply, renewUpd]
    split <;> rfl
  rw [List.filter_congr hpred]
  apply List.map_congr_left
  intro j hj
  have hjr : isRunningFor o c j = true := (List.mem_filter.mp hj).2
  simp [renewUpd, hjr]

/-- C4: Renew fails with `NotFound` exactly when no running instance
exists for the pair (and then changes nothing); on a running instance it
succeeds with the expiry recomputed from the current time, touches no
runtime state (live containers and ref counter unchanged, stored
instances only get a new `expires_at`), strictly increases a
previously-computed `expires_at` whenever the renewal happens strictly
later, and a repeated Renew still succeeds. -/
theorem c4_renew_spec (cfg : Settings) (st : ManagerState) (o c now : Nat) :
    ((renew cfg st o c now).1 = Except.error LifecycleError.NotFound ↔
      runningFor st o c = []) ∧
    (runningFor st o c = [] → (renew cfg st o c now).2 = st) ∧
    (∀ i rest, runningFor st o c = i :: rest →
      (renew cfg st o c now).1 =
        Except.ok { hostname := i.hostname, port := i.port_external,
                    expires := computeExpiry cfg now } ∧
      ((renew cfg st o c now).2).liveRefs = st.liveRefs ∧
      ((renew cfg st o c now).2).nextRef = st.nextRef ∧
      runningFor (renew cfg st o c now).2 o c =
        (runningFor st o c).map
          (fun j => { j with expires_at := computeExpiry cfg now }) ∧
      (∀ t0, cfg.container_expiration ≠ 0 → t0 < now →
        i.expires_at = some (t0 + cfg.container_expiration * 60) →
        ∃ e, computeExpiry cfg now = some e ∧
          t0 + cfg.container_expiration * 60 < e) ∧
      (∀ now2, (renew cfg (renew cfg st o c now).2 o c now2).1 ≠
        Except.error LifecycleError.NotFound)) := by
  refine ⟨?_, ?_, ?_⟩
  · constructor
    · intro he
      cases h : runningFor st o c with
      | nil => rfl
      | cons i rest =>
        rw [renew_of_running cfg st o c now i rest h] at he
        simp at he
    · intro h
      rw [renew_of_none cfg st o c now h]
  · intro h
    rw [renew_of_none cfg st o c now h]
  · intro i rest h
    rw [renew_of_running cfg st o c now i rest h]
    refine ⟨rfl, rfl, rfl, runningFor_renew cfg st o c now, ?_, ?_⟩
    · intro t0 hne hlt _
      refine ⟨now + cfg.container_expiration * 60, ?_, by omega⟩
      simp [computeExpiry, hne]
    · intro now2
      have hr2 := runningFor_renew cfg st o c now
      rw [h, List.map_cons] at hr2
      rw [renew_of_running cfg
        { st with instances := st.instances.map (renewUpd cfg now o c) }
        o c now2 _ _ hr2]
      simp

/-- C4 witness: the spec scenario with 30-minute expiration: Request at
t = 0 yields `expires_at = 1800` (t + 30 m); Renew at t = 600 (10 m)
yields `expires_at = 2400` (t + 40 m), strictly larger. -/
theorem c4_witness :
    runningFor exSt1 1 1 = [exInst] ∧
    exInst.expires_at = some (0 + exCfg.container_expiration * 60) ∧
    (renew exCfg exSt1 1 1 600).1 =
      Except.ok { hostname := "host", port := 4000, expires := some 2400 } ∧
    (∃ e, computeExpiry exCfg 600 = some e ∧
      0 + exCfg.container_expiration * 60 < e) := by
  have h := (c4_renew_spec exCfg exSt1 1 1 600).2.2 exInst [] (by decide)
  refine ⟨by decide, by decide, ?_, ?_⟩
  · exact h.1
  · exact h.2.2.2.2.1 0 (by decide) (by decide) (by decide)

/-- A record with `expires_at` unset is fixed by every sweep sequence:
sweeps never touch it. -/
theorem sweepMany_fixes_never_expire (i : ContainerInstance)
    (hexp : i.expires_at = none) :
    ∀ (ts : List Nat) (st : ManagerState), i ∈ st.instances →
      i ∈ (sweepMany st ts).instances := by
  intro ts
  induction ts with
  | nil =>
    intro st hi
    simpa [sweepMany] using hi
  | cons t ts ih =>
    intro st hi
    have hexp2 : isExpired t i = false := by
      simp [isExpired, hexp]
    have hmem : i ∈ (sweep st t).instances := by
      show i ∈ st.instances.map (sweepUpd t)
      exact List.mem_map.mpr ⟨i, hi, by simp [sweepUpd, hexp2]⟩
    exact ih (sweep st t) hmem

/-- C6: one Reaper sweep stops exactly the expired instances: every
stored instance that was `running` with a set, passed `expires_at` is
stopped (its record transitions to `stopped` and its container ref is no
longer live), no instance of the swept store is still expired, every
non-expired instance is carried over unchanged, and an instance with
`expires_at` unset is untouched by any number of sweeps. -/
theorem c6_sweep_spec (st : ManagerState) (now : Nat) :
    (∀ i ∈ st.instances, isExpired now i = true →
      { i with status := Status.stopped } ∈ (sweep st now).instances ∧
      i.container_ref ∉ (sweep st now).liveRefs) ∧
    (∀ j ∈ (sweep st now).instances, isExpired now j = false) ∧
    (∀ i ∈ st.instances, isExpired now i = false →
      i ∈ (sweep st now).instances) ∧
    (∀ i ∈ st.instances, i.expires_at = none →
      ∀ ts : List Nat, i ∈ (sweepMany st ts).instances) := by
  refine ⟨?_, ?_, ?_, ?_⟩
  · intro i hi hexp
    constructor
    · show _ ∈ st.instances.map (sweepUpd now)
      exact List.mem_map.mpr ⟨i, hi, by simp [sweepUpd, hexp]⟩
    · show i.container_ref ∉ st.liveRefs.filter _
      intro hmem
      have h2 := (List.mem_filter.mp hmem).2
      rw [Bool.not_eq_true'] at h2
      have hrefs : i.container_ref ∈
          (st.instances.filter (isExpired now)).map (fun i => i.container_ref) :=
        List.mem_map.mpr ⟨i, List.mem_filter.mpr ⟨hi, hexp⟩, rfl⟩
      have h3 : ((st.instances.filter (isExpired now)).map
          (fun i => i.container_ref)).contains i.container_ref = true :=
        List.elem_eq_true_of_mem hrefs
      rw [h2] at h3
      exact Bool.false_ne_true h3
  · intro j hj
    obtain ⟨j0, hj0, hj0e⟩ := List.mem_map.mp hj
    subst hj0e
    by_cases hc : isExpired now j0 = true
    · unfold sweepUpd
      rw [if_pos hc]
      simp [isExpired]
    · unfold sweepUpd
      rw [if_neg hc]
      simpa using hc
  · intro i hi hexp
    show i ∈ st.instances.map (sweepUpd now)
    exact List.mem_map.mpr ⟨i, hi, by simp [sweepUpd, hexp]⟩
  · intro i hi hexp ts
    exact sweepMany_fixes_never_expire i hexp ts st hi

/-- C6 witness: at t = 2000 the t = 0 instance (expiry 1800) is reaped —
stopped and no longer live — while the never-expire instance survives two
sweeps untouched. -/
theorem c6_witness :
    isExpired 2000 exInst = true ∧
    { exInst with status := Status.stopped } ∈ (sweep exStSweep 2000).instances ∧
    exInst.container_ref ∉ (sweep exStSweep 2000).liveRefs ∧
    exInstNoExp.expires_at = none ∧
    exInstNoExp ∈ (sweepMany exStSweep [2000, 100000]).instances := by
  have h := c6_sweep_spec exStSweep 2000
  refine ⟨by decide, ?_, ?_, by decide, ?_⟩
  · exact (h.1 exInst (by decide) (by decide)).1
  · exact (h.1 exInst (by decide) (by decide)).2
  · exact h.2.2.2 exInstNoExp (by decide) (by decide) [2000, 100000]

/-- countP is unchanged by a map that preserves the predicate pointwise. -/
theorem countP_map_eq {α : Type} (l : List α) (f : α → α) (p : α → Bool)
    (h : ∀ a ∈ l, p (f a) = p a) : (l.map f).countP p = l.countP p := by
  rw [List.countP_map]
  exact List.countP_congr (fun a ha => by rw [Function.comp_apply, h a ha])

/-- countP does not increase under a map that never turns the predicate
on. -/
theorem countP_map_le {α : Type} (l : List α) (f : α → α) (p : α → Bool)
    (h : ∀ a ∈ l, p (f a) = true → p a = true) :
    (l.map f).countP p ≤ l.countP p := by
  rw [List.countP_map]
  exact List.countP_mono_left h

/-- The creation path preserves the per-owner quota invariant. -/
theorem quota_createInstance (cfg : Settings) (ch : ChallengeConfig)
    (st : ManagerState) (o c now : Nat) (rt : Option Nat)
    (h : QuotaOK cfg st) :
    QuotaOK cfg (createInstance cfg ch st o c now rt).2 := by
  unfold createInstance
  by_cases hq : cfg.max_containers ≤ ownerRunningCount st o
  · rw [if_pos hq]
    exact h
  · rw [if_neg hq]
    cases rt with
    | none => exact h
    | some pext =>
      intro o2
      show (newInstance cfg ch st o c now pext :: st.instances).countP
        (countsForOwner o2) ≤ _
      rw [List.countP_cons]
      by_cases ho : o = o2
      · subst ho
        have hcount : countsForOwner o (newInstance cfg ch st o c now pext) = true := by
          simp [countsForOwner, newInstance]
        simp only [hcount, if_pos]
        have hlt := Nat.lt_of_not_le hq
        unfold ownerRunningCount at hlt
        omega
      · have hcount : countsForOwner o2 (newInstance cfg ch st o c now pext) = false := by
          simp [countsForOwner, newInstance]
          exact ho
        simp only [hcount]
        have h2 := h o2
        unfold ownerRunningCount at h2
        simp
        omega

/-- Request preserves the per-owner quota invariant. -/
theorem quota_request (cfg : Settings) (ch : ChallengeConfig)
    (st : ManagerState) (o c now : Nat) (rt : Option Nat)
    (h : QuotaOK cfg st) :
    QuotaOK cfg (request cfg ch st o c now rt).2 := by
  cases hr : runningFor st o c with
  | nil =>
    rw [request_of_fresh cfg ch st o c now rt hr]
    exact quota_createInstance cfg ch st o c now rt h
  | cons i rest =>
    rw [request_of_running cfg ch st o c now rt i rest hr]
    exact h

/-- Renew preserves the per-owner quota invariant (it changes no status
and no owner). -/
theorem quota_renew (cfg : Settings) (st : ManagerState) (o c now : Nat)
    (h : QuotaOK cfg st) :
    QuotaOK cfg (renew cfg st o c now).2 := by
  cases hr : runningFor st o c with
  | nil =>
    rw [renew_of_none cfg st o c now hr]
    exact h
  | cons i rest =>
    rw [renew_of_running cfg st o c now i rest hr]
    intro o2
    show (st.instances.map (renewUpd cfg now o c)).countP (countsForOwner o2) ≤ _
    rw [countP_map_eq st.instances _ _ (fun j _ => by unfold renewUpd; split <;> rfl)]
    exact h o2

/-- Stop preserves the per-owner quota invariant (a stopped record never
counts). -/
theorem quota_stop (cfg : Settings) (st : ManagerState) (o c : Nat)
    (h : QuotaOK cfg st) :
    QuotaOK cfg (stop st o c).2 := by
  cases hr : runningFor st o c with
  | nil =>
    unfold stop
    rw [hr]
    exact h
  | cons i rest =>
    unfold stop
    rw [hr]
    intro o2
    show (st.instances.map (stopUpd o c)).countP (countsForOwner o2) ≤ _
    refine Nat.le_trans (countP_map_le st.instances _ _ ?_) (h o2)
    intro j _ hpj
    unfold stopUpd at hpj
    by_cases hcase : isRunningFor o c j = true
    · rw [if_pos hcase] at hpj
      exact absurd hpj (by simp [countsForOwner])
    · rw [if_neg hcase] at hpj
      exact hpj

/-- A Reaper sweep preserves the per-owner quota invariant. -/
theorem quota_sweep (cfg : Settings) (st : ManagerState) (now : Nat)
    (h : QuotaOK cfg st) :
    QuotaOK cfg (sweep st now) := by
  intro o2
  show (st.instances.map (sweepUpd now)).countP (countsForOwner o2) ≤ _
  refine Nat.le_trans (countP_map_le st.instances _ _ ?_) (h o2)
  intro j _ hpj
  unfold sweepUpd at hpj
  by_cases hcase : isExpired now j = true
  · rw [if_pos hcase] at hpj
    exact absurd hpj (by simp [countsForOwner])
  · rw [if_neg hcase] at hpj
    exact hpj

/-- Reset preserves the per-owner quota invariant: removal of the pair's
records only lowers counts, and the creation path re-checks the quota. -/
theorem quota_reset (cfg : Settings) (ch : ChallengeConfig)
    (st : ManagerState) (o c now : Nat) (rt : Option Nat)
    (h : QuotaOK cfg st) :
    QuotaOK cfg (reset cfg ch st o c now rt).2 := by
  unfold reset
  by_cases hempty : (st.instances.filter
      (fun i => i.owner_id == o && i.challenge_id == c)).isEmpty = true
  · rw [if_pos hempty]
    exact h
  · rw [if_neg hempty]
    refine quota_createInstance cfg ch _ o c now rt ?_
    intro o2
    show (st.instances.filter _).countP (countsForOwner o2) ≤ _
    exact Nat.le_trans ((List.filter_sublist st.instances).countP_le _) (h o2)

/-- C2: every lifecycle operation — Request, Renew, Stop, Reset, and a
Reaper sweep — preserves the invariant that no owner exceeds
`max_containers` running instances; and a Request for a pair with no
running instance while the owner's running count is at (or above) the
quota fails with `QuotaExceeded` and changes nothing. -/
theorem c2_quota_invariant (cfg : Settings) (ch : ChallengeConfig)
    (st : ManagerState) (o c now : Nat) (rt : Option Nat) :
    (QuotaOK cfg st → QuotaOK cfg (request cfg ch st o c now rt).2) ∧
    (QuotaOK cfg st → QuotaOK cfg (renew cfg st o c now).2) ∧
    (QuotaOK cfg st → QuotaOK cfg (stop st o c).2) ∧
    (QuotaOK cfg st → QuotaOK cfg (reset cfg ch st o c now rt).2) ∧
    (QuotaOK cfg st → ∀ t, QuotaOK cfg (sweep st t)) ∧
    (runningFor st o c = [] → cfg.max_containers ≤ ownerRunningCount st o →
      request cfg ch st o c now rt =
        (Except.error LifecycleError.QuotaExceeded, st)) := by
  refine ⟨quota_request cfg ch st o c now rt, quota_renew cfg st o c now,
    quota_stop cfg st o c, quota_reset cfg ch st o c now rt,
    fun h t => quota_sweep cfg st t h, ?_⟩
  intro hfresh hq
  rw [request_of_fresh cfg ch st o c now rt hfresh]
  unfold createInstance
  rw [if_pos hq]

/-- C2 witness: the spec scenario with `max_containers = 1`: after owner
1's Request for challenge 1 succeeded, a Request for challenge 2 fails
with `QuotaExceeded` and preserves the quota invariant. -/
theorem c2_witness :
    runningFor exSt1 1 2 = [] ∧
    exCfgQ1.max_containers ≤ ownerRunningCount exSt1 1 ∧
    request exCfgQ1 exCh exSt1 1 2 100 (some 5000) =
      (Except.error LifecycleError.QuotaExceeded, exSt1) ∧
    QuotaOK exCfgQ1 (request exCfgQ1 exCh exSt1 1 2 100 (some 5000)).2 := by
  have hq : QuotaOK exCfgQ1 exSt1 := by
    intro o2
    exact Nat.le_trans (List.countP_le_length _) (by decide)
  refine ⟨by decide, by decide, ?_, ?_⟩
  · exact (c2_quota_invariant exCfgQ1 exCh exSt1 1 2 100 (some 5000)).2.2.2.2.2
      (by decide) (by decide)
  · exact (c2_quota_invariant exCfgQ1 exCh exSt1 1 2 100 (some 5000)).1 hq

/-- C8: the `container_running` onload handler invokes
`container_request(challenge_id)` exactly when the parsed response has no
`error` field, no `message` field, `status` strictly equal to
`"already_running"`, and `container_id` loosely equal (JavaScript `==`)
to the challenge id; any other response — including one whose
`container_id` differs from the challenge id — triggers no request. -/
theorem c8_container_running_invokes_iff (d : RunningResponse) (cid : Int) :
    RunEffect.invokeContainerRequest cid ∈ container_running_onload d cid ↔
      (d.error = none ∧ d.message = none ∧
       d.status = some (JsVal.jstr "already_running") ∧
       jsLooseEqNum d.container_id cid = true) := by
  unfold container_running_onload
  cases herr : d.error with
  | some e => simp
  | none =>
    cases hmsg : d.message with
    | some m => simp
    | none =>
      by_cases hs : d.status = some (JsVal.jstr "already_running") ∧
          jsLooseEqNum d.container_id cid = true
      · obtain ⟨hs1, hs2⟩ := hs
        simp [hs1, hs2]
      · simp [Bool.and_eq_true, beq_iff_eq, hs]

/-- C8 witness: a response reporting `already_running` with
`container_id` loosely equal to challenge id 5 triggers the request. -/
theorem c8_witness :
    RunEffect.invokeContainerRequest 5 ∈
      container_running_onload
        { error := none, message := none,
          status := some (JsVal.jstr "already_running"),
          container_id := some (JsVal.jnum 5) } 5 :=
  (c8_container_running_invokes_iff
    { error := none, message := none,
      status := some (JsVal.jstr "already_running"),
      container_id := some (JsVal.jnum 5) } 5).mpr (by decide)

/-- C9: `containerExpires` is unbound in the scope of `container_reset`'s
onload handler, so on every successful reset response (no `error`, no
`message`) the handler executes the hide-error and connection-info
updates and then faults — never reaching the result-panel display or the
button re-enable — while the error and message branches complete normally
and re-enable the reset button. -/
theorem c9_reset_success_faults :
    boundInResetOnload "containerExpires" = false ∧
    ∀ d : ResetResponse,
      (d.error = none → d.message = none →
        container_reset_onload d = ([RStmt.hideError, RStmt.setConnInfo], false)) ∧
      ((d.error ≠ none ∨ d.message ≠ none) →
        (container_reset_onload d).2 = true ∧
        RStmt.enableResetButton ∈ (container_reset_onload d).1) := by
  refine ⟨by decide, fun d => ⟨?_, ?_⟩⟩
  · intro he hm
    unfold container_reset_onload
    rw [he, hm]
    decide
  · intro hor
    cases herr : d.error with
    | some e =>
      have hred : container_reset_onload d =
          runStmts boundInResetOnload resetErrorBody := by
        unfold container_reset_onload
        rw [herr]
        rfl
      rw [hred]
      exact ⟨by decide, by decide⟩
    | none =>
      cases hmsg : d.message with
      | some m =>
        have hred : container_reset_onload d =
            runStmts boundInResetOnload resetMessageBody := by
          unfold container_reset_onload
          rw [herr, hmsg]
          rfl
        rw [hred]
        exact ⟨by decide, by decide⟩
      | none =>
        rcases hor with h | h
        · exact absurd herr h
        · exact absurd hmsg h

/-- C9 witness: a successful reset response faults after the
connection-info update; an error response completes. -/
theorem c9_witness :
    container_reset_onload
        { error := none, message := none, hostname := "h", port := 1,
          expires := 2 } =
      ([RStmt.hideError, RStmt.setConnInfo], false) ∧
    (container_reset_onload
        { error := some "boom", message := none, hostname := "h", port := 1,
          expires := 2 }).2 = true :=
  ⟨(c9_reset_success_faults.2
      { error := none, message := none, hostname := "h", port := 1,
        expires := 2 }).1 rfl rfl,
   ((c9_reset_success_faults.2
      { error := some "boom", message := none, hostname := "h", port := 1,
        expires := 2 }).2 (Or.inl (by decide))).1⟩

/-- C10: the image-dropdown onload handler: a response with an `error`
field writes the error string into the default option and leaves the
dropdown's disabled state as it was (so it stays disabled); otherwise it
appends exactly one option per entry of `images` in order, with value and
text the image name, sets the default option text to
"Choose an image...", and enables the dropdown. -/
theorem c10_images_dropdown (d : ImagesResponse) (s : DropdownState) :
    (∀ e, d.error = some e →
      images_onload d s = { s with defaultText := e } ∧
      (s.disabled = true → (images_onload d s).disabled = true)) ∧
    (d.error = none →
      (images_onload d s).options = s.options ++ d.images.map (fun n => (n, n)) ∧
      (images_onload d s).defaultText = "Choose an image..." ∧
      (images_onload d s).disabled = false) := by
  constructor
  · intro e he
    unfold images_onload
    rw [he]
    exact ⟨rfl, fun hd => hd⟩
  · intro he
    unfold images_onload
    rw [he]
    exact ⟨rfl, rfl, rfl⟩

/-- C10 witness: an engine error is surfaced in the (still disabled)
default option; a success response appends the two images in order. -/
theorem c10_witness :
    images_onload { error := some "engine unreachable", images := [] }
        { options := [], defaultText := "Loading...", disabled := true } =
      { options := [], defaultText := "engine unreachable", disabled := true } ∧
    (images_onload { error := none, images := ["a", "b"] }
        { options := [], defaultText := "Loading...", disabled := true }).options =
      [("a", "a"), ("b", "b")] :=
  ⟨((c10_images_dropdown
      { error := some "engine unreachable", images := [] }
      { options := [], defaultText := "Loading...", disabled := true }).1
      "engine unreachable" rfl).1,
   ((c10_images_dropdown
      { error := none, images := ["a", "b"] }
      { options := [], defaultText := "Loading...", disabled := true }).2 rfl).1⟩

end CtfdSetup
